import Mathlib

/-!
Shallow embedding of the storage layer and request handlers of the
Codezilla scholarship-matching application (src/server/db.ts,
src/shared/schema.ts and the route-registration module), together with
theorems settling the frozen claims about its specification.

External effects are made explicit:
* the Airtable backend is represented by outcome parameters (`uninit` when
  no credentials are configured, `err` when the call throws, `ok` carrying
  the raw record(s) the backend returned);
* `Math.random`, `randomUUID` and `new Date().toISOString()` are oracle
  parameters (`rand`, `ids`, `now`);
* `JSON.parse` restricted to string-array results is an oracle
  `parse : String → Except Unit (List String)` (the code casts parse
  results to `string[]`, so only array-of-string results are well typed);
  `JSON.stringify` on string lists is an oracle `stringify`.
The module-level in-memory maps (`profileStorage`, `matchStorage`,
`applicationStorage`) are threaded as association lists.
-/

namespace Codezilla

/-- JavaScript truthiness of an optional string field: `undefined` and the
empty string are falsy. -/
def truthyStr (a : Option String) : Bool :=
  match a with
  | none => false
  | some s => s ≠ ""

/-- JavaScript `a || b` on optional string fields. -/
def firstTruthy (a b : Option String) : Option String :=
  if truthyStr a then a else b

/-- JavaScript `a || b || dflt` on optional string fields, with a truthy
string literal default. -/
def firstTruthyD (a b : Option String) (dflt : String) : String :=
  match firstTruthy a b with
  | some s => if s = "" then dflt else s
  | none => dflt

/-- A raw Airtable field value as far as the scholarship mapper inspects it:
a string, a native array of strings, or some other truthy non-string
non-array value (falsy primitives behave like a missing field through the
`||` chains and `if` guards that consume these values). -/
inductive RawVal where
  | str (s : String)
  | list (xs : List String)
  | other
  deriving DecidableEq, Repr

/-- JavaScript truthiness of an optional raw field value. -/
def truthyVal (a : Option RawVal) : Bool :=
  match a with
  | none => false
  | some (.str s) => s ≠ ""
  | some (.list _) => true
  | some .other => true

/-- JavaScript `a || b` on optional raw field values. -/
def firstTruthyVal (a b : Option RawVal) : Option RawVal :=
  if truthyVal a then a else b

/-- In-process `Map` keyed by strings, as an association list (first match
wins on lookup). -/
abbrev AList (α : Type) : Type := List (String × α)

/-- `Map.get` on the association-list model. -/
def alGet {α : Type} (m : AList α) (k : String) : Option α :=
  (m.find? (fun p => p.1 == k)).map (fun p => p.2)

/-- `Map.set` on the association-list model: the new binding shadows any
older one. -/
def alSet {α : Type} (m : AList α) (k : String) (v : α) : AList α :=
  (k, v) :: List.filter (fun p => ! p.1 == k) m

/-- `StudentProfile` of shared/schema.ts. -/
structure StudentProfile where
  id : String
  name : String
  email : String
  phone : Option String
  location : String
  educationLevel : Option String
  fieldOfStudy : Option String
  gpa : Option String
  graduationYear : Option String
  skills : Option (List String)
  activities : Option String
  financialNeed : Option String
  summary : Option String
  education : Option String
  experience : Option String
  projects : Option String
  createdAt : String
  updatedAt : String
  deriving DecidableEq, Repr

/-- `InsertStudentProfile` of shared/schema.ts (the validated create
payload). -/
structure InsertStudentProfile where
  name : String
  email : String
  phone : Option String
  location : String
  educationLevel : Option String
  fieldOfStudy : Option String
  gpa : Option String
  graduationYear : Option String
  skills : Option (List String)
  activities : Option String
  financialNeed : Option String
  summary : Option String
  education : Option String
  experience : Option String
  projects : Option String
  deriving DecidableEq, Repr

/-- `Partial<InsertStudentProfile>`: each field is `some v` when the key is
present in the update payload and `none` when omitted (zod
`.partial().parse` drops absent keys). -/
structure UpdateStudentProfile where
  name : Option String
  email : Option String
  phone : Option String
  location : Option String
  educationLevel : Option String
  fieldOfStudy : Option String
  gpa : Option String
  graduationYear : Option String
  skills : Option (List String)
  activities : Option String
  financialNeed : Option String
  summary : Option String
  education : Option String
  experience : Option String
  projects : Option String
  deriving DecidableEq, Repr

/-- `Scholarship` of shared/schema.ts.  The TS field `type` is spelled
`type'` because `Type` is reserved in Lean. -/
structure Scholarship where
  id : String
  title : String
  organization : String
  amount : String
  deadline : String
  description : String
  requirements : String
  tags : List String
  type' : String
  eligibilityGpa : Option String
  eligibleFields : Option (List String)
  eligibleLevels : Option (List String)
  isActive : Bool
  createdAt : String
  notes : Option String
  profileId : Option String
  deriving DecidableEq, Repr

/-- `InsertScholarship` of shared/schema.ts. -/
structure InsertScholarship where
  title : String
  organization : String
  amount : String
  deadline : String
  description : String
  requirements : String
  tags : List String
  type' : String
  eligibilityGpa : Option String
  eligibleFields : Option (List String)
  eligibleLevels : Option (List String)
  isActive : Bool
  deriving DecidableEq, Repr

/-- `ScholarshipMatch` of shared/schema.ts. -/
structure ScholarshipMatch where
  id : String
  profileId : String
  scholarshipId : String
  matchScore : Nat
  aiReasoning : Option String
  status : String
  createdAt : String
  deriving DecidableEq, Repr

/-- `InsertScholarshipMatch` as the match-generation handler supplies it
(the handler always passes an explicit `status`). -/
structure InsertScholarshipMatch where
  profileId : String
  scholarshipId : String
  matchScore : Nat
  aiReasoning : Option String
  status : String
  deriving DecidableEq, Repr

/-- `ScholarshipApplication` of shared/schema.ts. -/
structure ScholarshipApplication where
  id : String
  studentProfileId : String
  scholarshipId : String
  documents : List String
  status : String
  appliedAt : String
  deriving DecidableEq, Repr

/-- `InsertScholarshipApplication` of shared/schema.ts (the store-level
create payload; `status` uses JS truthiness, empty meaning absent). -/
structure InsertScholarshipApplication where
  studentProfileId : String
  scholarshipId : String
  documents : List String
  status : String
  deriving DecidableEq, Repr

/-- The raw Airtable record fields read by `mapToScholarship`, in both
historical naming conventions.  The TS key `Type` is spelled `Type'` and
`type` is spelled `type'`. -/
structure RawFields where
  Title : Option String
  title : Option String
  Organization : Option String
  organization : Option String
  Amount : Option String
  amount : Option String
  Deadline : Option String
  deadline : Option String
  Description : Option String
  description : Option String
  Requirements : Option String
  requirements : Option String
  tags : Option RawVal
  Tags : Option RawVal
  eligibleFields : Option RawVal
  EligibleFields : Option RawVal
  eligibleLevels : Option RawVal
  EligibleLevels : Option RawVal
  Type' : Option String
  type' : Option String
  EligibilityGpa : Option String
  eligibilityGpa : Option String
  isActive : Option Bool
  CreatedAt : Option String
  createdAt : Option String
  Notes : Option String
  notes : Option String
  ProfileId : Option String
  profileId : Option String
  deriving DecidableEq, Repr

/-- A raw Airtable record (id plus fields). -/
structure RawRecord where
  id : String
  fields : RawFields
  deriving DecidableEq, Repr

/-- A `RawFields` value with every field absent. -/
def rfNone : RawFields :=
  ⟨none, none, none, none, none, none, none, none, none, none, none, none,
   none, none, none, none, none, none, none, none, none, none, none, none,
   none, none, none, none, none⟩

/-- A raw Airtable scholarship-match record as `mapToScholarshipMatch`
casts it (the casts assume a well-typed backend response). -/
structure RawMatchRecord where
  id : String
  profileId : String
  scholarshipId : String
  matchScore : Nat
  aiReasoning : Option String
  status : String
  createdAt : String
  deriving DecidableEq, Repr

/-- `String.prototype.startsWith`, modelled on character lists. -/
def strStartsWith (s pre : String) : Bool := pre.data.isPrefixOf s.data

/-- The list-field decoding inside `mapToScholarship` when the defaulting
target is the empty list (the `tags` branch): pass an array through,
`JSON.parse` a truthy string, and catch any parse error as `[]`.  A truthy
non-string non-array value falls to the `Array.isArray` else-branch,
also `[]`. -/
def decodeListField (parse : String → Except Unit (List String))
    (a b : Option RawVal) : List String :=
  match firstTruthyVal a b with
  | none => []
  | some (.str s) =>
    if s = "" then []
    else
      match parse s with
      | .ok xs => xs
      | .error _ => []
  | some (.list xs) => xs
  | some .other => []

/-- The list-field decoding inside `mapToScholarship` when the defaulting
target is `undefined` (the `eligibleFields` and `eligibleLevels`
branches): pass an array through, `JSON.parse` a truthy string, and catch
any parse error as `undefined`. -/
def decodeOptListField (parse : String → Except Unit (List String))
    (a b : Option RawVal) : Option (List String) :=
  match firstTruthyVal a b with
  | none => none
  | some (.str s) =>
    if s = "" then none
    else
      match parse s with
      | .ok xs => some xs
      | .error _ => none
  | some (.list xs) => some xs
  | some .other => none

/-- `AirtableStorage.mapToScholarship` (db.ts): raw record to typed
`Scholarship`, tolerating both naming conventions and substituting
defaults for missing display fields. -/
def mapToScholarship (parse : String → Except Unit (List String))
    (now : String) (r : RawRecord) : Scholarship :=
  { id := r.id
    title := firstTruthyD r.fields.Title r.fields.title "Untitled Scholarship"
    organization :=
      firstTruthyD r.fields.Organization r.fields.organization "Unknown Organization"
    amount := firstTruthyD r.fields.Amount r.fields.amount "Amount TBD"
    deadline := firstTruthyD r.fields.Deadline r.fields.deadline "No deadline specified"
    description :=
      firstTruthyD r.fields.Description r.fields.description "No description available"
    requirements :=
      firstTruthyD r.fields.Requirements r.fields.requirements "Check with scholarship provider"
    tags := decodeListField parse r.fields.tags r.fields.Tags
    type' := firstTruthyD r.fields.Type' r.fields.type' "merit-based"
    eligibilityGpa := firstTruthy r.fields.EligibilityGpa r.fields.eligibilityGpa
    eligibleFields := decodeOptListField parse r.fields.eligibleFields r.fields.EligibleFields
    eligibleLevels := decodeOptListField parse r.fields.eligibleLevels r.fields.EligibleLevels
    isActive := r.fields.isActive ≠ some false
    createdAt := firstTruthyD r.fields.CreatedAt r.fields.createdAt now
    notes := firstTruthy r.fields.Notes r.fields.notes
    profileId := firstTruthy r.fields.ProfileId r.fields.profileId }

/-- `AirtableStorage.mapToScholarshipMatch` (db.ts): the casts assume a
well-typed backend response. -/
def mapToScholarshipMatch (r : RawMatchRecord) : ScholarshipMatch :=
  { id := r.id
    profileId := r.profileId
    scholarshipId := r.scholarshipId
    matchScore := r.matchScore
    aiReasoning := r.aiReasoning
    status := r.status
    createdAt := r.createdAt }

/-- `AirtableStorage.getFallbackScholarships` (db.ts): the fixed 6-entity
catalog, timestamped with the current time. -/
def getFallbackScholarships (now : String) : List Scholarship :=
  [ { id := "fallback-1"
      title := "National Merit STEM Scholarship"
      organization := "Future Scientists Foundation"
      amount := "₹12,50,000"
      deadline := "2025-03-15"
      description := "Supporting outstanding students pursuing STEM degrees with demonstrated academic excellence and research potential."
      requirements := "Minimum 3.7 GPA, STEM major, research experience preferred"
      tags := ["STEM", "Merit-Based", "Undergraduate", "Research"]
      type' := "merit-based"
      eligibilityGpa := some "3.7"
      eligibleFields := some ["Computer Science", "Engineering", "Mathematics", "Physics", "Chemistry", "Biology"]
      eligibleLevels := some ["undergraduate"]
      isActive := true
      createdAt := now
      notes := none
      profileId := none },
    { id := "fallback-2"
      title := "Tech Diversity Excellence Award"
      organization := "TechForward Initiative"
      amount := "₹7,00,000"
      deadline := "2025-04-01"
      description := "Promoting diversity in technology fields by supporting underrepresented students with financial aid and mentorship."
      requirements := "Technology-related major, demonstrate financial need, minimum 3.0 GPA"
      tags := ["Technology", "Diversity", "Need-Based", "Mentorship"]
      type' := "need-based"
      eligibilityGpa := some "3.0"
      eligibleFields := some ["Computer Science", "Information Technology", "Software Engineering", "AIML"]
      eligibleLevels := some ["undergraduate", "graduate"]
      isActive := true
      createdAt := now
      notes := none
      profileId := none },
    { id := "fallback-3"
      title := "Community Leadership Grant"
      organization := "Local Community Foundation"
      amount := "₹2,50,000"
      deadline := "2025-05-15"
      description := "Recognizing students who demonstrate exceptional leadership and community service commitment."
      requirements := "Minimum 100 hours community service, leadership role in organization, any major, 3.2+ GPA"
      tags := ["Leadership", "Community Service", "Local"]
      type' := "merit-based"
      eligibilityGpa := some "3.2"
      eligibleFields := some []
      eligibleLevels := some ["undergraduate"]
      isActive := true
      createdAt := now
      notes := none
      profileId := none },
    { id := "fallback-4"
      title := "Environmental Innovation Award"
      organization := "Green Future Initiative"
      amount := "₹10,00,000"
      deadline := "2025-06-30"
      description := "Supporting students developing innovative solutions for environmental challenges and sustainability."
      requirements := "Environmental science or related field, research project focused on sustainability, minimum 3.5 GPA"
      tags := ["Environmental Science", "Innovation", "Research-Based", "Sustainability"]
      type' := "merit-based"
      eligibilityGpa := some "3.5"
      eligibleFields := some ["Environmental Science", "Environmental Engineering", "Renewable Energy", "Biology"]
      eligibleLevels := some ["undergraduate", "graduate"]
      isActive := true
      createdAt := now
      notes := none
      profileId := none },
    { id := "fallback-5"
      title := "First Generation College Student Support"
      organization := "Educational Equity Foundation"
      amount := "₹4,00,000"
      deadline := "2025-04-30"
      description := "Supporting first-generation college students with financial aid and academic support services."
      requirements := "First-generation college student status, demonstrate financial need, minimum 2.8 GPA"
      tags := ["First-Generation", "Need-Based", "Academic Support"]
      type' := "need-based"
      eligibilityGpa := some "2.8"
      eligibleFields := some []
      eligibleLevels := some ["undergraduate"]
      isActive := true
      createdAt := now
      notes := none
      profileId := none },
    { id := "fallback-6"
      title := "Women in Engineering Scholarship"
      organization := "Society of Women Engineers"
      amount := "₹8,00,000"
      deadline := "2025-05-01"
      description := "Empowering women pursuing engineering degrees with financial support and networking opportunities."
      requirements := "Female students in engineering programs, minimum 3.3 GPA"
      tags := ["Women", "Engineering", "STEM", "Diversity"]
      type' := "merit-based"
      eligibilityGpa := some "3.3"
      eligibleFields := some ["Engineering", "Computer Science", "Electronics", "Mechanical Engineering"]
      eligibleLevels := some ["undergraduate", "graduate"]
      isActive := true
      createdAt := now
      notes := none
      profileId := none } ]

/-- The in-memory `profileStorage` map. -/
abbrev ProfileStore : Type := AList StudentProfile

/-- The in-memory `matchStorage` map (profile ID to match batch). -/
abbrev MatchStore : Type := AList (List ScholarshipMatch)

/-- The in-memory `applicationStorage` map (profile ID to applications). -/
abbrev AppStore : Type := AList (List ScholarshipApplication)

/-- Outcome of the backend `select().all()` call behind
`getAllScholarships`: no credentials, a thrown error, or a record list. -/
inductive ListOutcome where
  | uninit
  | err
  | ok (records : List RawRecord)

/-- Outcome of the backend `find(id)` call behind `getScholarshipById`. -/
inductive FindOutcome where
  | uninit
  | err
  | notFound
  | ok (rec : RawRecord)

/-- Outcome of the backend `create` call behind `createScholarship`. -/
inductive SchCreateOutcome where
  | uninit
  | err
  | ok (rec : RawRecord)

/-- Outcome of the backend `create` call behind `createStudentProfile`
(on success only the returned record id is used). -/
inductive ProfCreateOutcome where
  | uninit
  | err
  | ok (recId : String)

/-- Outcome of the backend `create` call behind `createScholarshipMatch`. -/
inductive MatchCreateOutcome where
  | uninit
  | err
  | ok (rec : RawMatchRecord)

/-- The `hasProperData` heuristic of `getAllScholarships`: the first record
carries a truthy title or organization in either naming convention. -/
def hasProperData (r : RawRecord) : Bool :=
  truthyStr r.fields.Title || truthyStr r.fields.title ||
    truthyStr r.fields.Organization || truthyStr r.fields.organization

/-- `AirtableStorage.getAllScholarships` (db.ts): fallback catalog when
uninitialized or on error; otherwise the mapped records, discarded for the
fallback catalog when the first record fails `hasProperData`, when no
mapped record has a non-default title and organization, or when the result
is empty. -/
def getAllScholarships (parse : String → Except Unit (List String))
    (o : ListOutcome) (now : String) : List Scholarship :=
  match o with
  | .uninit => getFallbackScholarships now
  | .err => getFallbackScholarships now
  | .ok records =>
    let properCheckFails : Bool :=
      match records.head? with
      | some firstRecord => ! hasProperData firstRecord
      | none => false
    if properCheckFails then getFallbackScholarships now
    else
      let scholarships := records.map (mapToScholarship parse now)
      let hasValidData := scholarships.any (fun s =>
        s.title != "Untitled Scholarship" && s.organization != "Unknown Organization")
      if (! hasValidData) && decide (0 < scholarships.length) then
        getFallbackScholarships now
      else if 0 < scholarships.length then scholarships
      else getFallbackScholarships now

/-- `AirtableStorage.getScholarshipById` (db.ts): fallback lookup for
`fallback-` ids and for the uninitialized and error cases; a mapped record
whose title is the default is replaced by the first fallback entry. -/
def getScholarshipById (parse : String → Except Unit (List String))
    (o : FindOutcome) (id now : String) : Option Scholarship :=
  if strStartsWith id "fallback-" then
    (getFallbackScholarships now).find? (fun s => s.id == id)
  else
    match o with
    | .uninit => (getFallbackScholarships now).find? (fun s => s.id == id)
    | .notFound => none
    | .ok rec =>
      let scholarship := mapToScholarship parse now rec
      if scholarship.title == "Untitled Scholarship" then
        (getFallbackScholarships now).head?
      else some scholarship
    | .err => (getFallbackScholarships now).find? (fun s => s.id == id)

/-- `AirtableStorage.createScholarship` (db.ts): synthesized locally when
uninitialized, mapped from the backend response on success, and the
backend exception is rethrown on failure. -/
def createScholarship (parse : String → Except Unit (List String))
    (o : SchCreateOutcome) (s : InsertScholarship) (idv now : String) :
    Except Unit Scholarship :=
  match o with
  | .uninit =>
    .ok { id := idv, title := s.title, organization := s.organization,
          amount := s.amount, deadline := s.deadline,
          description := s.description, requirements := s.requirements,
          tags := s.tags, type' := s.type',
          eligibilityGpa := s.eligibilityGpa,
          eligibleFields := s.eligibleFields,
          eligibleLevels := s.eligibleLevels, isActive := s.isActive,
          createdAt := now, notes := none, profileId := none }
  | .ok rec => .ok (mapToScholarship parse now rec)
  | .err => .error ()

/-- The entity `createStudentProfile` builds in every branch: all data
fields from the input, both timestamps set to `now`. -/
def profileFromInsert (p : InsertStudentProfile) (idv now : String) :
    StudentProfile :=
  { id := idv, name := p.name, email := p.email, phone := p.phone,
    location := p.location, educationLevel := p.educationLevel,
    fieldOfStudy := p.fieldOfStudy, gpa := p.gpa,
    graduationYear := p.graduationYear, skills := p.skills,
    activities := p.activities, financialNeed := p.financialNeed,
    summary := p.summary, education := p.education,
    experience := p.experience, projects := p.projects,
    createdAt := now, updatedAt := now }

/-- `AirtableStorage.createStudentProfile` (db.ts): backend first (using
the backend record id on success), falling back to a locally generated id
when uninitialized or on error; the cache is populated in every branch and
the operation never throws. -/
def createStudentProfile (o : ProfCreateOutcome) (p : InsertStudentProfile)
    (idv now : String) (ps : ProfileStore) : StudentProfile × ProfileStore :=
  match o with
  | .ok recId =>
    let result := profileFromInsert p recId now
    (result, alSet ps recId result)
  | .uninit =>
    let result := profileFromInsert p idv now
    (result, alSet ps idv result)
  | .err =>
    let result := profileFromInsert p idv now
    (result, alSet ps idv result)

/-- JS object-spread override for an optional field: a key present in the
update wins, an absent key keeps the existing value. -/
def mergeOpt {α : Type} (u e : Option α) : Option α :=
  match u with
  | some v => some v
  | none => e

/-- `AirtableStorage.updateStudentProfile` (db.ts): merge the supplied
partial fields over the cached entity (or a synthesized empty one),
refresh `updatedAt`, update the cache and return the merged entity; the
backend write is best-effort and does not change the returned or cached
value. -/
def updateStudentProfile (id : String) (u : UpdateStudentProfile)
    (now : String) (ps : ProfileStore) : StudentProfile × ProfileStore :=
  let existingProfile : StudentProfile :=
    match alGet ps id with
    | some e => e
    | none =>
      { id := id, name := "", email := "", phone := none, location := "",
        educationLevel := none, fieldOfStudy := none, gpa := none,
        graduationYear := none, skills := none, activities := none,
        financialNeed := none, summary := none, education := none,
        experience := none, projects := none, createdAt := now,
        updatedAt := now }
  let updated : StudentProfile :=
    { id := existingProfile.id
      name := u.name.getD existingProfile.name
      email := u.email.getD existingProfile.email
      phone := mergeOpt u.phone existingProfile.phone
      location := u.location.getD existingProfile.location
      educationLevel := mergeOpt u.educationLevel existingProfile.educationLevel
      fieldOfStudy := mergeOpt u.fieldOfStudy existingProfile.fieldOfStudy
      gpa := mergeOpt u.gpa existingProfile.gpa
      graduationYear := mergeOpt u.graduationYear existingProfile.graduationYear
      skills := mergeOpt u.skills existingProfile.skills
      activities := mergeOpt u.activities existingProfile.activities
      financialNeed := mergeOpt u.financialNeed existingProfile.financialNeed
      summary := mergeOpt u.summary existingProfile.summary
      education := mergeOpt u.education existingProfile.education
      experience := mergeOpt u.experience existingProfile.experience
      projects := mergeOpt u.projects existingProfile.projects
      createdAt := existingProfile.createdAt
      updatedAt := now }
  (updated, alSet ps id updated)

/-- `AirtableStorage.createScholarshipMatch` (db.ts): the synthesized
match is appended to the in-memory batch for the profile in every branch;
the return value is the synthesized match except when the backend create
succeeds, in which case the mapped backend response is returned. -/
def createScholarshipMatch (o : MatchCreateOutcome)
    (m : InsertScholarshipMatch) (idv now : String) (ms : MatchStore) :
    ScholarshipMatch × MatchStore :=
  let newMatch : ScholarshipMatch :=
    { id := idv, profileId := m.profileId, scholarshipId := m.scholarshipId,
      matchScore := m.matchScore, aiReasoning := m.aiReasoning,
      status := m.status, createdAt := now }
  let existingMatches := (alGet ms m.profileId).getD []
  let ms' := alSet ms m.profileId (existingMatches ++ [newMatch])
  match o with
  | .uninit => (newMatch, ms')
  | .err => (newMatch, ms')
  | .ok rec => (mapToScholarshipMatch rec, ms')

/-- `AirtableStorage.updateMatchStatus` (db.ts), uninitialized branch: a
synthesized match carrying only the requested status is returned and the
in-memory match store is untouched. -/
def updateMatchStatusUninit (matchId status now : String) (ms : MatchStore) :
    ScholarshipMatch × MatchStore :=
  ({ id := matchId, profileId := "", scholarshipId := "", matchScore := 0,
     aiReasoning := none, status := status, createdAt := now }, ms)

/-- Stable insertion of a match-with-scholarship pair into a list already
sorted by descending score (models the JS stable sort comparator
`b.matchScore - a.matchScore`). -/
def insertByScoreDesc (x : ScholarshipMatch × Scholarship) :
    List (ScholarshipMatch × Scholarship) → List (ScholarshipMatch × Scholarship)
  | [] => [x]
  | y :: ys =>
    if y.1.matchScore < x.1.matchScore then x :: y :: ys
    else y :: insertByScoreDesc x ys

/-- Stable sort by descending match score. -/
def sortByScoreDesc :
    List (ScholarshipMatch × Scholarship) → List (ScholarshipMatch × Scholarship)
  | [] => []
  | x :: xs => insertByScoreDesc x (sortByScoreDesc xs)

/-- `AirtableStorage.getScholarshipMatches` (db.ts) in the uninitialized
state: a non-empty in-memory batch is filtered to status `new`, joined
with its scholarships and sorted by descending score; otherwise the
backend branch is skipped and the result is empty. -/
def getScholarshipMatchesUninit (parse : String → Except Unit (List String))
    (profileId now : String) (ms : MatchStore) :
    List (ScholarshipMatch × Scholarship) :=
  match alGet ms profileId with
  | some storedMatches =>
    if 0 < storedMatches.length then
      sortByScoreDesc
        ((storedMatches.filter (fun m => m.status == "new")).filterMap
          (fun m =>
            (getScholarshipById parse .uninit m.scholarshipId now).map
              (fun sch => (m, sch))))
    else []
  | none => []

/-- `AirtableStorage.createScholarshipApplication` (db.ts): purely
in-memory, appends to the batch for the student profile. -/
def createScholarshipApplication (a : InsertScholarshipApplication)
    (idv now : String) (store : AppStore) :
    ScholarshipApplication × AppStore :=
  let newApplication : ScholarshipApplication :=
    { id := idv, studentProfileId := a.studentProfileId,
      scholarshipId := a.scholarshipId, documents := a.documents,
      status := if a.status = "" then "pending" else a.status,
      appliedAt := now }
  let existing := (alGet store a.studentProfileId).getD []
  (newApplication, alSet store a.studentProfileId (existing ++ [newApplication]))

/-- `String.prototype.toLowerCase`, modelled character-wise on the
string's character list (the documents here are ASCII file names). -/
def strToLower (s : String) : String := ⟨s.data.map Char.toLower⟩

/-- `String.prototype.endsWith`, modelled on character lists. -/
def strEndsWith (s suffix : String) : Bool := suffix.data.isSuffixOf s.data

/-- Result of a request handler: `ok` for a JSON 200 payload,
`clientError` for a 400 response, `notFound` for a 404 response. -/
inductive HandlerResult (α : Type) where
  | ok (value : α)
  | clientError (message : String)
  | notFound (message : String)
  deriving DecidableEq, Repr

/-- The POST /api/applications route handler: requires profile and
scholarship ids, rejects any document whose lowercased name does not end
in `.pdf`, then persists with a hard-coded status `pending`.  The
client-supplied status (destructured with default `draft`) is never
used. -/
def applicationsHandler (profileId scholarshipId : String)
    (documents : List String) (_clientStatus : String) (idv now : String)
    (store : AppStore) : HandlerResult ScholarshipApplication × AppStore :=
  if profileId = "" then (.clientError "Profile ID is required", store)
  else if scholarshipId = "" then
    (.clientError "Scholarship ID is required", store)
  else
    let invalidDocs := documents.filter (fun doc =>
      ! strEndsWith (strToLower doc) ".pdf")
    if 0 < invalidDocs.length then
      (.clientError "Only PDF documents are allowed", store)
    else
      let created := createScholarshipApplication
        { studentProfileId := profileId, scholarshipId := scholarshipId,
          documents := documents, status := "pending" } idv now store
      (.ok created.1, created.2)

/-- The fixed placeholder reasoning string of the match-generation
route. -/
def matchReasoningPlaceholder : String :=
  "Pre-stored scholarship. AI matching will be enabled soon."

/-- The create-matches loop of POST /api/matches/generate: one
`createScholarshipMatch` call per scholarship of the catalog, with score
`Math.floor(Math.random() * 40) + 60` modelled as `rand i + 60`. -/
def genMatchesLoop (pid : String) (catalog : List Scholarship)
    (rand : Nat → Nat) (ids : Nat → String)
    (outs : Nat → MatchCreateOutcome) (now : String) (i : Nat)
    (ms : MatchStore) : List ScholarshipMatch × MatchStore :=
  match catalog with
  | [] => ([], ms)
  | s :: rest =>
    let step := createScholarshipMatch (outs i)
      { profileId := pid, scholarshipId := s.id, matchScore := rand i + 60,
        aiReasoning := some matchReasoningPlaceholder, status := "new" }
      (ids i) now ms
    let restStep := genMatchesLoop pid rest rand ids outs now (i + 1) step.2
    (step.1 :: restStep.1, restStep.2)

/-- The match records synthesized (and stored) by the create-matches loop,
as a pure list. -/
def generatedMatches (pid : String) (catalog : List Scholarship)
    (rand : Nat → Nat) (ids : Nat → String) (now : String) (i : Nat) :
    List ScholarshipMatch :=
  match catalog with
  | [] => []
  | s :: rest =>
    { id := ids i, profileId := pid, scholarshipId := s.id,
      matchScore := rand i + 60,
      aiReasoning := some matchReasoningPlaceholder, status := "new",
      createdAt := now } :: generatedMatches pid rest rand ids now (i + 1)

/-- The POST /api/matches/generate route handler: requires a profile id,
resolves the profile (`profileRes` models the storage lookup result),
fetches the full catalog through `getAllScholarships` and creates one
match per scholarship. -/
def matchesGenerateHandler (parse : String → Except Unit (List String))
    (profileRes : Option StudentProfile) (catalogOutcome : ListOutcome)
    (pid : String) (rand : Nat → Nat) (ids : Nat → String)
    (outs : Nat → MatchCreateOutcome) (now : String) (ms : MatchStore) :
    HandlerResult (List ScholarshipMatch) × MatchStore :=
  if pid = "" then (.clientError "Profile ID is required", ms)
  else
    match profileRes with
    | none => (.notFound "Profile not found", ms)
    | some _ =>
      let scholarships := getAllScholarships parse catalogOutcome now
      let looped := genMatchesLoop pid scholarships rand ids outs now 0 ms
      (.ok looped.1, looped.2)

/-- The raw record a faithful backend would return for the fields written
by `createScholarship`: capitalized keys only, list fields JSON-encoded by
`stringify`, `EligibilityGpa` written as `scholarship.eligibilityGpa || ""`
and `isActive` never written. -/
def echoScholarshipRecord (stringify : List String → String) (rid : String)
    (s : InsertScholarship) (now : String) : RawRecord :=
  { id := rid
    fields :=
      { rfNone with
        Title := some s.title
        Organization := some s.organization
        Amount := some s.amount
        Deadline := some s.deadline
        Description := some s.description
        Requirements := some s.requirements
        Tags := some (.str (stringify s.tags))
        Type' := some s.type'
        EligibilityGpa := some (s.eligibilityGpa.getD "")
        EligibleFields := some (.str (stringify (s.eligibleFields.getD [])))
        EligibleLevels := some (.str (stringify (s.eligibleLevels.getD [])))
        CreatedAt := some now } }

/-- A sample scholarship create payload used as a concrete input in
counterexamples and witnesses. -/
def sampleInsertScholarship : InsertScholarship :=
  { title := "T1", organization := "O1", amount := "A1", deadline := "D1",
    description := "Desc1", requirements := "R1", tags := ["x"],
    type' := "merit-based", eligibilityGpa := some "3.0",
    eligibleFields := some ["x"], eligibleLevels := some ["x"],
    isActive := true }

/-- C6: whenever the backend is unavailable (Uninitialized) or the backend
call errors, listing scholarships returns exactly the fixed 6-entity
Fallback Catalog, and in particular never an empty list. -/
theorem getAllScholarships_unavailable_returns_fallback
    (parse : String → Except Unit (List String)) (now : String) :
    getAllScholarships parse .uninit now = getFallbackScholarships now ∧
    getAllScholarships parse .err now = getFallbackScholarships now ∧
    (getFallbackScholarships now).length = 6 ∧
    getFallbackScholarships now ≠ [] := by
  refine ⟨rfl, rfl, rfl, ?_⟩
  simp [getFallbackScholarships]

/-- C10: in Uninitialized mode, updateMatchStatus leaves the in-memory
match store unchanged for every match ID and returns a synthesized match
with empty profileId and scholarshipId and matchScore 0 carrying only the
requested status, so a subsequent getScholarshipMatches for any profile
returns the same results as before the status update. -/
theorem updateMatchStatusUninit_frame
    (matchId status now : String) (ms : MatchStore) :
    updateMatchStatusUninit matchId status now ms =
      ({ id := matchId, profileId := "", scholarshipId := "",
         matchScore := 0, aiReasoning := none, status := status,
         createdAt := now }, ms) ∧
    (∀ parse profileId now2,
      getScholarshipMatchesUninit parse profileId now2
          (updateMatchStatusUninit matchId status now ms).2 =
        getScholarshipMatchesUninit parse profileId now2 ms) :=
  ⟨rfl, fun _ _ _ => rfl⟩

/-- C2 (code-bug evaluation): POST /api/applications with an empty
document list succeeds and persists an application with no documents —
the handler never applies the schema rule requiring at least one
document, so creation does not fail on an empty list. -/
theorem applicationsHandler_accepts_empty_documents :
    applicationsHandler "p1" "s1" [] "draft" "id1" "t1" [] =
      (.ok { id := "id1", studentProfileId := "p1", scholarshipId := "s1",
             documents := [], status := "pending", appliedAt := "t1" },
       [("p1", [{ id := "id1", studentProfileId := "p1",
                  scholarshipId := "s1", documents := ([] : List String),
                  status := "pending", appliedAt := "t1" }])]) := by
  decide

/-- C3 counterexample: with the backend available but its create call
throwing, createScholarship propagates the exception instead of
returning an entity, refuting the claim that no entity-create operation
ever fails outward. -/
theorem createScholarship_backend_error_throws :
    createScholarship (fun _ => .error ()) .err sampleInsertScholarship
      "u1" "t0" = .error () := rfl

/-- C3 amended: profile creation never fails outward in any backend
condition — it returns an entity built from the input with a fresh id
(the backend record id on success, the generated UUID otherwise) and
both timestamps set to now, and populates the cache — while scholarship
creation returns an entity when the backend is absent (synthesized
locally with fresh id and timestamp) or succeeds, but propagates the
backend exception when the backend create fails. -/
theorem create_operations_failure_modes :
    (∀ (o : ProfCreateOutcome) (p : InsertStudentProfile)
        (idv now : String) (ps : ProfileStore),
      (createStudentProfile o p idv now ps).1 =
        profileFromInsert p
          (match o with | .ok recId => recId | _ => idv) now ∧
      (createStudentProfile o p idv now ps).2 =
        alSet ps (match o with | .ok recId => recId | _ => idv)
          ((createStudentProfile o p idv now ps).1) ∧
      ((createStudentProfile o p idv now ps).1).createdAt = now ∧
      ((createStudentProfile o p idv now ps).1).updatedAt = now) ∧
    (∀ parse (s : InsertScholarship) (idv now : String),
      createScholarship parse .uninit s idv now =
        .ok { id := idv, title := s.title, organization := s.organization,
              amount := s.amount, deadline := s.deadline,
              description := s.description,
              requirements := s.requirements, tags := s.tags,
              type' := s.type', eligibilityGpa := s.eligibilityGpa,
              eligibleFields := s.eligibleFields,
              eligibleLevels := s.eligibleLevels, isActive := s.isActive,
              createdAt := now, notes := none, profileId := none }) ∧
    (∀ parse (s : InsertScholarship) (rec : RawRecord) (idv now : String),
      createScholarship parse (.ok rec) s idv now =
        .ok (mapToScholarship parse now rec)) ∧
    (∀ parse (s : InsertScholarship) (idv now : String),
      createScholarship parse .err s idv now = .error ()) := by
  refine ⟨?_, fun _ _ _ _ => rfl, fun _ _ _ _ _ => rfl, fun _ _ _ _ => rfl⟩
  intro o p idv now ps
  cases o <;> exact ⟨rfl, rfl, rfl, rfl⟩

/-- C9: every create-application request that passes validation is
persisted and returned with status pending, regardless of the
client-supplied status (the handler discards it before calling the
store). -/
theorem applicationsHandler_forces_pending_status
    (profileId scholarshipId : String) (documents : List String)
    (clientStatus idv now : String) (store : AppStore)
    (hp : profileId ≠ "") (hs : scholarshipId ≠ "")
    (hdocs : documents.filter (fun doc => ! strEndsWith (strToLower doc) ".pdf") = []) :
    (applicationsHandler profileId scholarshipId documents clientStatus
        idv now store).1 =
      .ok { id := idv, studentProfileId := profileId,
            scholarshipId := scholarshipId, documents := documents,
            status := "pending", appliedAt := now } ∧
    alGet (applicationsHandler profileId scholarshipId documents
        clientStatus idv now store).2 profileId =
      some ((alGet store profileId).getD [] ++
        [{ id := idv, studentProfileId := profileId,
           scholarshipId := scholarshipId, documents := documents,
           status := "pending", appliedAt := now }]) := by
  unfold applicationsHandler
  rw [hdocs]
  simp only [hp, hs, if_false, List.length_nil, lt_irrefl, if_neg,
    createScholarshipApplication]
  constructor
  · simp [hp, hs]
  · simp [hp, hs, alGet, alSet, List.find?]

/-- C9 witness: a concrete request with a client-supplied status of
`accepted` still comes back pending. -/
theorem applicationsHandler_forces_pending_status_witness :
    (applicationsHandler "p1" "s1" ["a.PDF"] "accepted" "id1" "t1" []).1 =
      .ok { id := "id1", studentProfileId := "p1", scholarshipId := "s1",
            documents := ["a.PDF"], status := "pending",
            appliedAt := "t1" } :=
  (applicationsHandler_forces_pending_status "p1" "s1" ["a.PDF"]
    "accepted" "id1" "t1" [] (by decide) (by decide) (by decide)).1

/-- C4 counterexample: a record whose eligibleFields value is a string
that fails to JSON-parse maps to an absent eligibleFields, not to an
empty list as claimed. -/
theorem mapToScholarship_parse_failure_not_empty_list :
    (mapToScholarship (fun _ => .error ()) "t0"
        ⟨"r1", { rfNone with eligibleFields := some (.str "bad") }⟩).eligibleFields
      = none ∧
    (mapToScholarship (fun _ => .error ()) "t0"
        ⟨"r1", { rfNone with eligibleFields := some (.str "bad") }⟩).eligibleFields
      ≠ some [] := by
  exact ⟨rfl, by decide⟩

/-- C4 amended: each list-typed field passes a native array through and
JSON-parses a truthy string, and no parse error is ever propagated; a
parse failure yields the empty list for tags but an absent value for
eligibleFields and eligibleLevels. -/
theorem mapToScholarship_list_field_decoding
    (parse : String → Except Unit (List String)) (now rid : String) :
    (∀ rf xs, rf.tags = some (.list xs) →
      (mapToScholarship parse now ⟨rid, rf⟩).tags = xs) ∧
    (∀ rf s xs, rf.tags = some (.str s) → s ≠ "" → parse s = .ok xs →
      (mapToScholarship parse now ⟨rid, rf⟩).tags = xs) ∧
    (∀ rf s, rf.tags = some (.str s) → s ≠ "" → parse s = .error () →
      (mapToScholarship parse now ⟨rid, rf⟩).tags = []) ∧
    (∀ rf xs, rf.eligibleFields = some (.list xs) →
      (mapToScholarship parse now ⟨rid, rf⟩).eligibleFields = some xs) ∧
    (∀ rf s xs, rf.eligibleFields = some (.str s) → s ≠ "" →
      parse s = .ok xs →
      (mapToScholarship parse now ⟨rid, rf⟩).eligibleFields = some xs) ∧
    (∀ rf s, rf.eligibleFields = some (.str s) → s ≠ "" →
      parse s = .error () →
      (mapToScholarship parse now ⟨rid, rf⟩).eligibleFields = none) ∧
    (∀ rf xs, rf.eligibleLevels = some (.list xs) →
      (mapToScholarship parse now ⟨rid, rf⟩).eligibleLevels = some xs) ∧
    (∀ rf s xs, rf.eligibleLevels = some (.str s) → s ≠ "" →
      parse s = .ok xs →
      (mapToScholarship parse now ⟨rid, rf⟩).eligibleLevels = some xs) ∧
    (∀ rf s, rf.eligibleLevels = some (.str s) → s ≠ "" →
      parse s = .error () →
      (mapToScholarship parse now ⟨rid, rf⟩).eligibleLevels = none) := by
  refine ⟨?_, ?_, ?_, ?_, ?_, ?_, ?_, ?_, ?_⟩
  · intro rf xs h
    simp [mapToScholarship, decodeListField, firstTruthyVal, truthyVal, h]
  · intro rf s xs h hs hp
    simp [mapToScholarship, decodeListField, firstTruthyVal, truthyVal,
      h, hs, hp]
  · intro rf s h hs hp
    simp [mapToScholarship, decodeListField, firstTruthyVal, truthyVal,
      h, hs, hp]
  · intro rf xs h
    simp [mapToScholarship, decodeOptListField, firstTruthyVal, truthyVal, h]
  · intro rf s xs h hs hp
    simp [mapToScholarship, decodeOptListField, firstTruthyVal, truthyVal,
      h, hs, hp]
  · intro rf s h hs hp
    simp [mapToScholarship, decodeOptListField, firstTruthyVal, truthyVal,
      h, hs, hp]
  · intro rf xs h
    simp [mapToScholarship, decodeOptListField, firstTruthyVal, truthyVal, h]
  · intro rf s xs h hs hp
    simp [mapToScholarship, decodeOptListField, firstTruthyVal, truthyVal,
      h, hs, hp]
  · intro rf s h hs hp
    simp [mapToScholarship, decodeOptListField, firstTruthyVal, truthyVal,
      h, hs, hp]

/-- C4 witness: concrete decodes — a native tags array passes through and
a parse failure on a tags string yields the empty list. -/
theorem mapToScholarship_list_field_decoding_witness :
    (mapToScholarship (fun _ => .ok ["x"]) "t0"
        ⟨"r1", { rfNone with tags := some (.str "J") }⟩).tags = ["x"] ∧
    (mapToScholarship (fun _ => .error ()) "t0"
        ⟨"r1", { rfNone with tags := some (.str "J") }⟩).tags = [] :=
  ⟨(mapToScholarship_list_field_decoding (fun _ => .ok ["x"]) "t0" "r1").2.1
      { rfNone with tags := some (.str "J") } "J" ["x"] rfl (by decide) rfl,
   (mapToScholarship_list_field_decoding (fun _ => .error ()) "t0" "r1").2.2.1
      { rfNone with tags := some (.str "J") } "J" rfl (by decide) rfl⟩

/-- Lookup after `Map.set` at the written key yields the written value. -/
theorem alGet_alSet_self {α : Type} (m : AList α) (k : String) (v : α) :
    alGet (alSet m k v) k = some v := by
  simp [alGet, alSet, List.find?]

/-- Lookup after `Map.set` at any other key is unchanged. -/
theorem alGet_alSet_ne {α : Type} (m : AList α) (k q : String) (v : α)
    (h : q ≠ k) : alGet (alSet m k v) q = alGet m q := by
  have hkq : (k == q) = false := by
    simp only [beq_eq_false_iff_ne]
    exact fun hh => h hh.symm
  simp only [alGet, alSet, List.find?, hkq]
  congr 1
  induction m with
  | nil => rfl
  | cons a as ih =>
    by_cases hak : a.1 = k
    · have : (a.1 == k) = true := beq_iff_eq.mpr hak
      have haq : (a.1 == q) = false := by
        simp only [beq_eq_false_iff_ne]
        intro hh
        exact h (hh.symm.trans hak)
      simp [List.filter, this, List.find?, haq, ih]
    · have : (a.1 == k) = false := beq_eq_false_iff_ne.mpr hak
      by_cases haq : a.1 = q
      · have hq : (a.1 == q) = true := beq_iff_eq.mpr haq
        simp [List.filter, this, List.find?, hq]
      · have hq : (a.1 == q) = false := beq_eq_false_iff_ne.mpr haq
        simp [List.filter, this, List.find?, hq, ih]

/-- A sample student profile used as concrete input in witnesses. -/
def sampleProfileP1 : StudentProfile :=
  { id := "p1", name := "N", email := "n@x.com", phone := none,
    location := "L", educationLevel := none, fieldOfStudy := none,
    gpa := some "3.5", graduationYear := none, skills := some ["s1"],
    activities := none, financialNeed := none, summary := none,
    education := none, experience := none, projects := none,
    createdAt := "t0", updatedAt := "t0" }

/-- A sample update payload supplying only the name field. -/
def sampleUpdateNameOnly : UpdateStudentProfile :=
  { name := some "N2", email := none, phone := none, location := none,
    educationLevel := none, fieldOfStudy := none, gpa := none,
    graduationYear := none, skills := none, activities := none,
    financialNeed := none, summary := none, education := none,
    experience := none, projects := none }

/-- C7: for a profile update with a partial field set, every omitted field
retains its pre-update value in the returned and cached entity (`mergeOpt
none w = w`, `Option.getD` of `none`), every present field overwrites
(`mergeOpt (some v) w = some v`), the id and createdAt are retained, and
only updatedAt changes besides the supplied fields. -/
theorem updateStudentProfile_merge_semantics
    (id : String) (u : UpdateStudentProfile) (now : String)
    (ps : ProfileStore) (e : StudentProfile) (he : alGet ps id = some e) :
    (updateStudentProfile id u now ps).1 =
      { id := e.id
        name := u.name.getD e.name
        email := u.email.getD e.email
        phone := mergeOpt u.phone e.phone
        location := u.location.getD e.location
        educationLevel := mergeOpt u.educationLevel e.educationLevel
        fieldOfStudy := mergeOpt u.fieldOfStudy e.fieldOfStudy
        gpa := mergeOpt u.gpa e.gpa
        graduationYear := mergeOpt u.graduationYear e.graduationYear
        skills := mergeOpt u.skills e.skills
        activities := mergeOpt u.activities e.activities
        financialNeed := mergeOpt u.financialNeed e.financialNeed
        summary := mergeOpt u.summary e.summary
        education := mergeOpt u.education e.education
        experience := mergeOpt u.experience e.experience
        projects := mergeOpt u.projects e.projects
        createdAt := e.createdAt
        updatedAt := now } ∧
    (updateStudentProfile id u now ps).2 =
      alSet ps id (updateStudentProfile id u now ps).1 ∧
    alGet (updateStudentProfile id u now ps).2 id =
      some (updateStudentProfile id u now ps).1 ∧
    (∀ (v : String) (w : Option String), mergeOpt (some v) w = some v) ∧
    (∀ w : Option String, mergeOpt none w = w) := by
  refine ⟨?_, ?_, ?_, fun _ _ => rfl, fun _ => rfl⟩
  · simp only [updateStudentProfile, he]
  · simp only [updateStudentProfile, he]
  · simp only [updateStudentProfile, he]
    exact alGet_alSet_self ..

/-- C7 witness: updating only the name of a cached profile changes the
name and updatedAt and retains everything else. -/
theorem updateStudentProfile_merge_semantics_witness :
    (updateStudentProfile "p1" sampleUpdateNameOnly "t2"
        [("p1", sampleProfileP1)]).1 =
      { sampleProfileP1 with name := "N2", updatedAt := "t2" } :=
  ((updateStudentProfile_merge_semantics "p1" sampleUpdateNameOnly "t2"
      [("p1", sampleProfileP1)] sampleProfileP1 (by decide)).1).trans
    (by decide)

/-- The fallback catalog is never empty. -/
theorem getFallbackScholarships_ne_nil (now : String) :
    getFallbackScholarships now ≠ [] := by
  simp [getFallbackScholarships]

/-- C8: getAllScholarships never returns an empty list in any mode or on
any backend outcome — zero backend records, a first record lacking
title and organization in both naming conventions, and record sets whose
mapped entities all carry a default title or organization are each
replaced by the Fallback Catalog, and otherwise a non-empty mapped list
is returned. -/
theorem getAllScholarships_never_empty
    (parse : String → Except Unit (List String)) (now : String) :
    (∀ o, getAllScholarships parse o now ≠ []) ∧
    (getAllScholarships parse (.ok []) now = getFallbackScholarships now) ∧
    (∀ r rest, hasProperData r = false →
      getAllScholarships parse (.ok (r :: rest)) now =
        getFallbackScholarships now) ∧
    (∀ records, records ≠ [] →
      ((records.map (mapToScholarship parse now)).all (fun s =>
        s.title == "Untitled Scholarship" ||
        s.organization == "Unknown Organization")) = true →
      getAllScholarships parse (.ok records) now =
        getFallbackScholarships now) := by
  refine ⟨?_, ?_, ?_, ?_⟩
  · intro o
    cases o with
    | uninit => exact getFallbackScholarships_ne_nil now
    | err => exact getFallbackScholarships_ne_nil now
    | ok records =>
      simp only [getAllScholarships]
      split
      · exact getFallbackScholarships_ne_nil now
      · split
        · exact getFallbackScholarships_ne_nil now
        · split
          · next hlen => exact List.length_pos.mp hlen
          · exact getFallbackScholarships_ne_nil now
  · rfl
  · intro r rest h
    simp [getAllScholarships, h]
  · intro records hne hall
    have hvalid : (records.map (mapToScholarship parse now)).any (fun s =>
        s.title != "Untitled Scholarship" &&
        s.organization != "Unknown Organization") = false := by
      rw [List.any_eq_false]
      intro s hs
      have hq := List.all_eq_true.mp hall s hs
      cases ht : s.title == "Untitled Scholarship" with
      | true => simp [bne, ht]
      | false =>
        cases ho : s.organization == "Unknown Organization" with
        | true => simp [bne, ho]
        | false => rw [ht, ho] at hq; exact absurd hq (by simp)
    have hlen : 0 < (records.map (mapToScholarship parse now)).length := by
      rw [List.length_map, List.length_pos]
      exact hne
    simp only [getAllScholarships]
    split
    · rfl
    · rw [hvalid]
      simp [hlen]
      intro h
      exact absurd h hne

/-- C8 witness: concrete backend outcomes — a record with no proper
fields, a non-empty record set mapping entirely to defaults, and the
uninitialized mode — all yield the (non-empty) fallback catalog. -/
theorem getAllScholarships_never_empty_witness :
    getAllScholarships (fun _ => .error ()) (.ok [⟨"r1", rfNone⟩]) "t" =
      getFallbackScholarships "t" ∧
    getAllScholarships (fun _ => .error ())
        (.ok [⟨"r1", { rfNone with Title := some "X" }⟩]) "t" =
      getFallbackScholarships "t" ∧
    getAllScholarships (fun _ => .error ()) .uninit "t" ≠ [] :=
  ⟨(getAllScholarships_never_empty (fun _ => .error ()) "t").2.2.1
      ⟨"r1", rfNone⟩ [] (by decide),
   (getAllScholarships_never_empty (fun _ => .error ()) "t").2.2.2
      [⟨"r1", { rfNone with Title := some "X" }⟩] (by decide) (by decide),
   (getAllScholarships_never_empty (fun _ => .error ()) "t").1 .uninit⟩

/-- The store effect of one `createScholarshipMatch` call is the same in
every backend condition: append the synthesized match to the profile's
batch. -/
theorem createScholarshipMatch_store (o : MatchCreateOutcome)
    (m : InsertScholarshipMatch) (idv now : String) (ms : MatchStore) :
    (createScholarshipMatch o m idv now ms).2 =
      alSet ms m.profileId (((alGet ms m.profileId).getD []) ++
        [{ id := idv, profileId := m.profileId,
           scholarshipId := m.scholarshipId, matchScore := m.matchScore,
           aiReasoning := m.aiReasoning, status := m.status,
           createdAt := now }]) := by
  cases o <;> rfl

/-- Length of the synthesized match list. -/
theorem generatedMatches_length (pid : String) (rand : Nat → Nat)
    (ids : Nat → String) (now : String) :
    ∀ (catalog : List Scholarship) (i : Nat),
      (generatedMatches pid catalog rand ids now i).length =
        catalog.length := by
  intro catalog
  induction catalog with
  | nil => intro i; rfl
  | cons s rest ih => intro i; simp [generatedMatches, ih (i + 1)]

/-- The synthesized matches target the catalog's scholarships one by one,
in order. -/
theorem generatedMatches_scholarshipIds (pid : String) (rand : Nat → Nat)
    (ids : Nat → String) (now : String) :
    ∀ (catalog : List Scholarship) (i : Nat),
      (generatedMatches pid catalog rand ids now i).map
          (fun m => m.scholarshipId) =
        catalog.map (fun s => s.id) := by
  intro catalog
  induction catalog with
  | nil => intro i; rfl
  | cons s rest ih => intro i; simp [generatedMatches, ih (i + 1)]

/-- Every synthesized match has score in [60, 100] (given each random
draw is below 40), status new, the requesting profile id and the fixed
placeholder reasoning. -/
theorem generatedMatches_mem (pid : String) (rand : Nat → Nat)
    (ids : Nat → String) (now : String) (hrand : ∀ i, rand i < 40) :
    ∀ (catalog : List Scholarship) (i : Nat) (m : ScholarshipMatch),
      m ∈ generatedMatches pid catalog rand ids now i →
      60 ≤ m.matchScore ∧ m.matchScore ≤ 100 ∧ m.status = "new" ∧
      m.profileId = pid ∧
      m.aiReasoning = some matchReasoningPlaceholder := by
  intro catalog
  induction catalog with
  | nil => intro i m hm; exact absurd hm (by simp [generatedMatches])
  | cons s rest ih =>
    intro i m hm
    rw [generatedMatches, List.mem_cons] at hm
    rcases hm with hm | hm
    · subst hm
      refine ⟨by simp, ?_, rfl, rfl, rfl⟩
      have := hrand i
      simp only
      omega
    · exact ih (i + 1) m hm

/-- The create-matches loop returns one response entry per scholarship,
appends exactly the synthesized matches to the profile's stored batch,
and leaves every other profile's batch unchanged. -/
theorem genMatchesLoop_spec (pid : String) (rand : Nat → Nat)
    (ids : Nat → String) (outs : Nat → MatchCreateOutcome) (now : String) :
    ∀ (catalog : List Scholarship) (i : Nat) (ms : MatchStore),
      (genMatchesLoop pid catalog rand ids outs now i ms).1.length =
        catalog.length ∧
      (alGet (genMatchesLoop pid catalog rand ids outs now i ms).2 pid).getD [] =
        (alGet ms pid).getD [] ++ generatedMatches pid catalog rand ids now i ∧
      (∀ q, q ≠ pid →
        alGet (genMatchesLoop pid catalog rand ids outs now i ms).2 q =
          alGet ms q) := by
  intro catalog
  induction catalog with
  | nil =>
    intro i ms
    exact ⟨rfl, by simp [genMatchesLoop, generatedMatches], fun q hq => rfl⟩
  | cons s rest ih =>
    intro i ms
    have hstore := createScholarshipMatch_store (outs i)
      { profileId := pid, scholarshipId := s.id, matchScore := rand i + 60,
        aiReasoning := some matchReasoningPlaceholder, status := "new" }
      (ids i) now ms
    obtain ⟨ihlen, ihstore, ihframe⟩ := ih (i + 1)
      ((createScholarshipMatch (outs i)
        { profileId := pid, scholarshipId := s.id, matchScore := rand i + 60,
          aiReasoning := some matchReasoningPlaceholder, status := "new" }
        (ids i) now ms).2)
    refine ⟨?_, ?_, ?_⟩
    · simp only [genMatchesLoop, List.length_cons]
      rw [ihlen]
    · simp only [genMatchesLoop]
      rw [ihstore, hstore, alGet_alSet_self]
      simp only [Option.getD_some, generatedMatches]
      rw [List.append_assoc]
      rfl
    · intro q hq
      simp only [genMatchesLoop]
      rw [ihframe q hq, hstore, alGet_alSet_ne _ _ _ _ hq]

/-- C1: for every profile that exists, POST /api/matches/generate over a
catalog of N scholarships responds with N matches and creates (stores)
exactly N match records, one per scholarship in order, each with integer
score in the inclusive range [60, 100], status new and the fixed
placeholder reasoning string; other profiles' stored batches are
untouched. -/
theorem matchesGenerate_one_match_per_scholarship
    (parse : String → Except Unit (List String)) (p : StudentProfile)
    (o : ListOutcome) (pid : String) (rand : Nat → Nat)
    (ids : Nat → String) (outs : Nat → MatchCreateOutcome) (now : String)
    (ms : MatchStore) (hpid : pid ≠ "") (hrand : ∀ i, rand i < 40) :
    (matchesGenerateHandler parse (some p) o pid rand ids outs now ms).1 =
      .ok (genMatchesLoop pid (getAllScholarships parse o now) rand ids
        outs now 0 ms).1 ∧
    (genMatchesLoop pid (getAllScholarships parse o now) rand ids outs
        now 0 ms).1.length = (getAllScholarships parse o now).length ∧
    (alGet (matchesGenerateHandler parse (some p) o pid rand ids outs now
        ms).2 pid).getD [] =
      (alGet ms pid).getD [] ++
        generatedMatches pid (getAllScholarships parse o now) rand ids now 0 ∧
    (∀ q, q ≠ pid →
      alGet (matchesGenerateHandler parse (some p) o pid rand ids outs now
        ms).2 q = alGet ms q) ∧
    (generatedMatches pid (getAllScholarships parse o now) rand ids
        now 0).length = (getAllScholarships parse o now).length ∧
    (generatedMatches pid (getAllScholarships parse o now) rand ids
        now 0).map (fun m => m.scholarshipId) =
      (getAllScholarships parse o now).map (fun s => s.id) ∧
    (∀ m ∈ generatedMatches pid (getAllScholarships parse o now) rand ids
        now 0,
      60 ≤ m.matchScore ∧ m.matchScore ≤ 100 ∧ m.status = "new" ∧
      m.profileId = pid ∧
      m.aiReasoning = some matchReasoningPlaceholder) := by
  have hh : matchesGenerateHandler parse (some p) o pid rand ids outs now ms =
      (.ok (genMatchesLoop pid (getAllScholarships parse o now) rand ids
          outs now 0 ms).1,
       (genMatchesLoop pid (getAllScholarships parse o now) rand ids outs
          now 0 ms).2) := by
    simp [matchesGenerateHandler, hpid]
  obtain ⟨h1, h2, h3⟩ := genMatchesLoop_spec pid rand ids outs now
    (getAllScholarships parse o now) 0 ms
  refine ⟨by rw [hh], h1, by rw [hh]; exact h2, ?_,
    generatedMatches_length pid rand ids now _ 0,
    generatedMatches_scholarshipIds pid rand ids now _ 0,
    fun m hm => generatedMatches_mem pid rand ids now hrand _ 0 m hm⟩
  intro q hq
  rw [hh]
  exact h3 q hq

/-- C1 witness: a concrete generate-matches request in uninitialized mode
(6-entity fallback catalog) with a constant zero random draw. -/
theorem matchesGenerate_one_match_per_scholarship_witness :
    (∀ i, (fun (_ : Nat) => 0) i < 40) ∧
    (matchesGenerateHandler (fun _ => .error ()) (some sampleProfileP1)
        .uninit "p1" (fun _ => 0) (fun _ => "m1") (fun _ => .uninit)
        "t" []).1 =
      .ok (genMatchesLoop "p1"
        (getAllScholarships (fun _ => .error ()) .uninit "t")
        (fun _ => 0) (fun _ => "m1") (fun _ => .uninit) "t" 0 []).1 ∧
    (genMatchesLoop "p1" (getAllScholarships (fun _ => .error ()) .uninit "t")
        (fun _ => 0) (fun _ => "m1") (fun _ => .uninit) "t" 0 []).1.length =
      (getAllScholarships (fun _ => .error ()) .uninit "t").length :=
  ⟨fun _ => by show (0 : Nat) < 40; decide,
   (matchesGenerate_one_match_per_scholarship (fun _ => .error ())
      sampleProfileP1 .uninit "p1" (fun _ => 0) (fun _ => "m1")
      (fun _ => .uninit) "t" [] (by decide) (fun _ => by show (0 : Nat) < 40; decide)).1,
   (matchesGenerate_one_match_per_scholarship (fun _ => .error ())
      sampleProfileP1 .uninit "p1" (fun _ => 0) (fun _ => "m1")
      (fun _ => .uninit) "t" [] (by decide) (fun _ => by show (0 : Nat) < 40; decide)).2.1⟩

/-- A fresh id (one not prefixed `fallback-`) never occurs in the
fallback catalog. -/
theorem fallback_find_fresh_none (id now : String)
    (h : strStartsWith id "fallback-" = false) :
    (getFallbackScholarships now).find? (fun s => s.id == id) = none := by
  have key : ∀ k : String, strStartsWith k "fallback-" = true →
      (k == id) = false := by
    intro k hk
    cases hbe : (k == id) with
    | false => rfl
    | true =>
      exfalso
      have hko := eq_of_beq hbe
      rw [hko] at hk
      rw [hk] at h
      exact Bool.noConfusion h
  simp [getFallbackScholarships, List.find?,
    key "fallback-1" (by decide), key "fallback-2" (by decide),
    key "fallback-3" (by decide), key "fallback-4" (by decide),
    key "fallback-5" (by decide), key "fallback-6" (by decide)]

/-- C5 counterexample: in Uninitialized mode the round-trip fails — the
create returns a synthesized entity carrying the fresh id, but fetching
that id returns nothing, since the store keeps no scholarship cache and
the fallback catalog does not contain the id. -/
theorem scholarship_roundtrip_uninitialized_fails :
    createScholarship (fun _ => .error ()) .uninit sampleInsertScholarship
        "u1" "t0" =
      .ok { id := "u1", title := "T1", organization := "O1",
            amount := "A1", deadline := "D1", description := "Desc1",
            requirements := "R1", tags := ["x"], type' := "merit-based",
            eligibilityGpa := some "3.0", eligibleFields := some ["x"],
            eligibleLevels := some ["x"], isActive := true,
            createdAt := "t0", notes := none, profileId := none } ∧
    getScholarshipById (fun _ => .error ()) .uninit "u1" "t0" = none := by
  exact ⟨rfl, by decide⟩

/-- Mapping the faithful echo of a created scholarship recovers the input
fields, provided no mapper default kicks in and JSON parsing inverts the
stringification of the list fields. -/
theorem mapToScholarship_echoRecord
    (parse : String → Except Unit (List String))
    (stringify : List String → String) (rid : String)
    (s : InsertScholarship) (now : String) (efs els : List String)
    (htitle : s.title ≠ "") (horg : s.organization ≠ "")
    (hamount : s.amount ≠ "") (hdeadline : s.deadline ≠ "")
    (hdesc : s.description ≠ "") (hreq : s.requirements ≠ "")
    (htype : s.type' ≠ "") (hgpa : s.eligibilityGpa ≠ some "")
    (hef : s.eligibleFields = some efs) (hel : s.eligibleLevels = some els)
    (htags : parse (stringify s.tags) = .ok s.tags)
    (htagsne : stringify s.tags ≠ "")
    (hefp : parse (stringify efs) = .ok efs)
    (hefne : stringify efs ≠ "")
    (helsp : parse (stringify els) = .ok els)
    (helsne : stringify els ≠ "") :
    mapToScholarship parse now (echoScholarshipRecord stringify rid s now) =
      { id := rid, title := s.title, organization := s.organization,
        amount := s.amount, deadline := s.deadline,
        description := s.description, requirements := s.requirements,
        tags := s.tags, type' := s.type',
        eligibilityGpa := s.eligibilityGpa,
        eligibleFields := s.eligibleFields,
        eligibleLevels := s.eligibleLevels, isActive := true,
        createdAt := now, notes := none, profileId := none } := by
  rcases hg : s.eligibilityGpa with _ | g
  · simp [mapToScholarship, echoScholarshipRecord, rfNone, decodeListField,
      decodeOptListField, firstTruthyVal, truthyVal, firstTruthyD,
      firstTruthy, truthyStr, htitle, horg, hamount, hdeadline, hdesc,
      hreq, htype, htags, htagsne, hefp, hefne, helsp, helsne, hef, hel, hg]
    rcases eq_or_ne now "" with hnow | hnow <;> simp [hnow]
  · have hgne : g ≠ "" := by
      rintro rfl
      exact hgpa hg
    simp [mapToScholarship, echoScholarshipRecord, rfNone, decodeListField,
      decodeOptListField, firstTruthyVal, truthyVal, firstTruthyD,
      firstTruthy, truthyStr, htitle, horg, hamount, hdeadline, hdesc,
      hreq, htype, htags, htagsne, hefp, hefne, helsp, helsne, hef, hel,
      hg, hgne]
    rcases eq_or_ne now "" with hnow | hnow <;> simp [hnow]

/-- C5 amended: the create-then-fetch round-trip holds in
Backend-Available mode when the backend faithfully echoes the written
fields and JSON parsing inverts stringification, for inputs on which no
mapper default kicks in (non-empty display strings, a title other than
the default, an eligibility GPA other than the empty string, the active
flag left true, and present list fields); in Uninitialized mode the
round-trip fails: fetching the returned fresh id yields not-found. -/
theorem scholarship_roundtrip_backend_echo
    (parse : String → Except Unit (List String))
    (stringify : List String → String) (s : InsertScholarship)
    (rid idv now : String) (efs els : List String)
    (hrid : strStartsWith rid "fallback-" = false)
    (htitle : s.title ≠ "") (htitleD : s.title ≠ "Untitled Scholarship")
    (horg : s.organization ≠ "") (hamount : s.amount ≠ "")
    (hdeadline : s.deadline ≠ "") (hdesc : s.description ≠ "")
    (hreq : s.requirements ≠ "") (htype : s.type' ≠ "")
    (hgpa : s.eligibilityGpa ≠ some "") (hactive : s.isActive = true)
    (hef : s.eligibleFields = some efs) (hel : s.eligibleLevels = some els)
    (htags : parse (stringify s.tags) = .ok s.tags)
    (htagsne : stringify s.tags ≠ "")
    (hefp : parse (stringify efs) = .ok efs)
    (hefne : stringify efs ≠ "")
    (helsp : parse (stringify els) = .ok els)
    (helsne : stringify els ≠ "") :
    ∃ sch : Scholarship,
      createScholarship parse
          (.ok (echoScholarshipRecord stringify rid s now)) s idv now =
        .ok sch ∧
      getScholarshipById parse
          (.ok (echoScholarshipRecord stringify rid s now)) rid now =
        some sch ∧
      sch.title = s.title ∧ sch.organization = s.organization ∧
      sch.amount = s.amount ∧ sch.deadline = s.deadline ∧
      sch.description = s.description ∧
      sch.requirements = s.requirements ∧ sch.tags = s.tags ∧
      sch.type' = s.type' ∧ sch.eligibilityGpa = s.eligibilityGpa ∧
      sch.eligibleFields = s.eligibleFields ∧
      sch.eligibleLevels = s.eligibleLevels ∧
      sch.isActive = s.isActive ∧
      getScholarshipById parse .uninit rid now = none := by
  have hmap := mapToScholarship_echoRecord parse stringify rid s now efs
    els htitle horg hamount hdeadline hdesc hreq htype hgpa hef hel htags
    htagsne hefp hefne helsp helsne
  have hbne : ((mapToScholarship parse now
      (echoScholarshipRecord stringify rid s now)).title ==
        "Untitled Scholarship") = false := by
    rw [hmap]
    exact beq_eq_false_iff_ne.mpr htitleD
  refine ⟨mapToScholarship parse now
      (echoScholarshipRecord stringify rid s now), rfl, ?_,
    by rw [hmap], by rw [hmap], by rw [hmap], by rw [hmap], by rw [hmap],
    by rw [hmap], by rw [hmap], by rw [hmap], by rw [hmap], by rw [hmap],
    by rw [hmap], by rw [hmap]; exact hactive.symm, ?_⟩
  · simp only [getScholarshipById, hrid, Bool.false_eq_true, if_false,
      hbne]
  · simp only [getScholarshipById, hrid, Bool.false_eq_true, if_false]
    exact fallback_find_fresh_none rid now hrid

/-- C5 witness: a concrete backend-echo round-trip for the sample
scholarship, with a stringify and parse pair inverting each other on its
list fields. -/
theorem scholarship_roundtrip_backend_echo_witness :
    ∃ sch : Scholarship,
      createScholarship (fun _ => .ok ["x"])
          (.ok (echoScholarshipRecord (fun _ => "S") "u1"
            sampleInsertScholarship "t1")) sampleInsertScholarship
          "i1" "t1" = .ok sch ∧
      getScholarshipById (fun _ => .ok ["x"])
          (.ok (echoScholarshipRecord (fun _ => "S") "u1"
            sampleInsertScholarship "t1")) "u1" "t1" = some sch ∧
      sch.title = sampleInsertScholarship.title ∧
      sch.organization = sampleInsertScholarship.organization ∧
      sch.amount = sampleInsertScholarship.amount ∧
      sch.deadline = sampleInsertScholarship.deadline ∧
      sch.description = sampleInsertScholarship.description ∧
      sch.requirements = sampleInsertScholarship.requirements ∧
      sch.tags = sampleInsertScholarship.tags ∧
      sch.type' = sampleInsertScholarship.type' ∧
      sch.eligibilityGpa = sampleInsertScholarship.eligibilityGpa ∧
      sch.eligibleFields = sampleInsertScholarship.eligibleFields ∧
      sch.eligibleLevels = sampleInsertScholarship.eligibleLevels ∧
      sch.isActive = sampleInsertScholarship.isActive ∧
      getScholarshipById (fun _ => .ok ["x"]) .uninit "u1" "t1" = none :=
  scholarship_roundtrip_backend_echo (fun _ => .ok ["x"]) (fun _ => "S")
    sampleInsertScholarship "u1" "i1" "t1" ["x"] ["x"] (by decide)
    (by decide) (by decide) (by decide) (by decide) (by decide)
    (by decide) (by decide) (by decide) (by decide) (by decide) rfl rfl
    rfl (by decide) rfl (by decide) rfl (by decide)

end Codezilla
